import Mathlib

/-!
# Verification of the AV1 batch-encoder pipeline (`av1_enc_qsv.py`)

A shallow embedding of the staged processing pipeline of
`src/av1_enc_qsv/av1_enc_qsv.py`: discovery (file scanner), staging
(file preparer), transcode (ffmpeg encoder worker) and the final temp
cleanup, together with theorems settling the specification claims.

Conventions of the embedding:
* Python `str` statuses stay `String`s, exactly the literals the script uses.
* `None`-able fields become `Option`.
* Filesystem and subprocess effects are explicit inputs (`Except`/flags
  describing what the OS call did) and explicit outputs (a list of
  filesystem operations the code performed), so every function is a pure,
  executable Lean `def` mirroring the Python control flow line by line.
* Machine integers: sizes and ids are `Nat`, process return codes `Int`
  (no overflow is relevant anywhere in the script).
-/

namespace Av1EncQsv

/-! ## Configuration constants (script lines 16-32) -/

def SOURCE_DIRECTORY : String := "."
def TEMP_DIRECTORY : String := "/ssd/av1_tmp/"
def NUM_FILES_TO_PREPARE : Nat := 2
def NUM_FFMPEG_WORKERS : Nat := 1
def VIDEO_EXTENSIONS : List String :=
  [".mp4", ".mkv", ".avi", ".mov", ".webm", ".flv", ".ts", ".mts", ".m2ts"]
def FFMPEG_ENCODE_TIMEOUT_SECONDS : Nat := 10 * 60

/-! ## Path helpers (`os.path` functions the script uses) -/

/-- Splits a character list at `/`, accumulating the current component. -/
def splitOnSlashAux : List Char → List Char → List (List Char)
  | [], acc => [acc.reverse]
  | c :: cs, acc =>
    if c = '/' then acc.reverse :: splitOnSlashAux cs []
    else splitOnSlashAux cs (c :: acc)

/-- Components of a path: the semantics of `p.split("/")`. -/
def splitPath (p : String) : List String :=
  (splitOnSlashAux p.data []).map List.asString

/-- Joins path components back with `/` (inverse of `splitPath`). -/
def joinPath (comps : List String) : String :=
  match comps with
  | [] => ""
  | c :: cs => cs.foldl (fun acc s => acc ++ "/" ++ s) c

/-- Mirrors `os.path.basename`: the part after the last `/`. -/
def basename (p : String) : String :=
  (splitPath p).getLastD ""

/-- Index of the last occurrence of character `c` in `s`, if any. -/
def lastIdxOf (s : String) (c : Char) : Option Nat :=
  (List.range s.length).foldl
    (fun acc i => if s.data.getD i ' ' = c then some i else acc) none

/-- Mirrors `os.path.splitext` for ordinary file names: split at the last dot,
provided the dot is not the first character of the basename. -/
def splitext (p : String) : String × String :=
  match lastIdxOf p '.' with
  | none => (p, "")
  | some d =>
    let base0 := match lastIdxOf p '/' with | none => 0 | some s => s + 1
    if base0 < d then
      ((p.data.take d).asString, (p.data.drop d).asString)
    else (p, "")

/-- Mirrors `os.path.join` as the script uses it (directory, filename). -/
def pathJoin (dir name : String) : String :=
  if dir.data.getLastD ' ' = '/' then dir ++ name else dir ++ "/" ++ name

/-- Scanner extension filter: `filename.lower().endswith(VIDEO_EXTENSIONS)`
(script line 176). -/
def isVideoFile (filename : String) : Bool :=
  VIDEO_EXTENSIONS.any (fun e => String.endsWith filename.toLower e)

/-! ## Data model: `FileItem` (script lines 37-57) -/

/-- The per-file work item. Fields and defaults follow the Python
dataclass; `filename` and `extension` are the `__post_init__` values. -/
structure FileItem where
  id : Nat
  original_path : String
  filename : String
  extension : String
  temp_source_path : Option String := none
  temp_encoded_path : Option String := none
  status : String := "pending"
  status_message : String := ""
  original_size : Nat := 0
  encoded_size : Option Nat := none
  error_details : Option String := none
  input_codec : Option String := none
  qsv_input_codec : Option String := none
  use_cpu_decode : Bool := false
  encoding_start_time : Option Nat := none
deriving Repr, DecidableEq

/-- Construction `FileItem(id=..., original_path=..., original_size=...)` including the
`__post_init__` computation of `filename` and `extension`. -/
def FileItem.create (id : Nat) (original_path : String) (original_size : Nat) : FileItem :=
  { id := id
    original_path := original_path
    filename := basename original_path
    extension := (splitext (basename original_path)).2
    original_size := original_size }

/-- The statuses the script treats as terminal (quit check, line 993). -/
def terminalStatuses : List String :=
  ["success", "skipped", "error", "cancelled", "deleted_zero", "deleted_error"]

/-! ## Effects of OS calls, as explicit inputs/outputs -/

/-- Result of a fallible OS call such as `os.remove`. -/
inductive OsResult where
  | ok
  | err (msg : String)
deriving Repr, DecidableEq

/-- A filesystem operation the embedded code performed. -/
inductive FsOp where
  | removeFile (p : String)
  | copyFile (src dst : String)
  | moveFile (src dst : String)
  | makeDirs (p : String)
deriving Repr, DecidableEq

/-! ## Discovery stage: `file_scanner_worker` (script lines 151-223)

The per-file body of the walk (lines 176-212) and the completion step
that seeds the pending queue (lines 214-221). The outcomes of
`os.path.getsize` and of the optional `os.remove` on a zero-byte file
are inputs. -/

/-- One iteration of the scanner's per-file loop: create the item,
handle the `--delete-zeros` case, or record an access error
(lines 179-212). `sizeResult` is `os.path.getsize`; `deleteResult` is
`os.remove` on the zero-byte file (consulted only when attempted). -/
def scanner_processFile (id : Nat) (path : String)
    (sizeResult : Except String Nat) (deleteZeros : Bool)
    (deleteResult : OsResult) : FileItem :=
  match sizeResult with
  | .error e =>
      -- `except OSError` branch, lines 204-212
      { FileItem.create id path 0 with
          status := "error", status_message := "Access error",
          error_details := some e }
  | .ok size =>
      let item := FileItem.create id path size
      if size == 0 && deleteZeros then
        match deleteResult with
        | .ok =>
            { item with status := "deleted_zero",
                        status_message := "0-byte file (deleted)" }
        | .err e =>
            { item with status := "error",
                        status_message := "0-byte (delete failed)",
                        error_details := some e }
      else item

/-- Scanner completion (lines 214-221): sort every discovered item by
`original_path`, then enqueue exactly the still-`pending` ones in that
order. Returns `(all_files, pending_files_queue)`. -/
def scanner_finalize (discovered : List FileItem) : List FileItem × List FileItem :=
  let sortedAll := discovered.mergeSort
    (fun a b => decide (a.original_path ≤ b.original_path))
  (sortedAll, sortedAll.filter (fun i => i.status == "pending"))

/-! ## Probe collaborator: `get_video_codec_info` (script lines 113-148)

The body of the `try` block may raise; every handler returns `None`.
We embed the body as `Except`-valued over an environment describing what
the `ffprobe` subprocess did, and the whole function as the body wrapped
in the three `except` handlers. -/

/-- A Python exception as raised inside the `try` of `get_video_codec_info`. -/
inductive PyExn where
  | timeoutExpired
  | jsonDecodeError (msg : String)
  | otherError (name msg : String)
deriving Repr, DecidableEq

/-- What the `ffprobe` subprocess invocation did.
`exits rc parsed`: the process completed with return code `rc`;
`parsed` describes `json.loads(stdout)` followed by the stream lookup —
`.error m` is a `JSONDecodeError`, `.ok none` means no `streams` entry,
`.ok (some c)` means a first video stream whose `codec_name` is `c`
(itself optional, since `.get` may yield `None`). -/
inductive ProbeEnv where
  | raises (name msg : String)
  | timesOut
  | exits (returncode : Int) (parsed : Except String (Option (Option String)))
deriving Repr

/-- The `try` block of `get_video_codec_info` (lines 116-137): raise on
subprocess failure or malformed JSON, else return the codec name (or
`none` when there is no video stream or the probe exited non-zero). -/
def get_video_codec_info_tryBody (env : ProbeEnv) : Except PyExn (Option String) :=
  match env with
  | .raises n m => .error (.otherError n m)
  | .timesOut => .error .timeoutExpired
  | .exits rc parsed =>
    if rc == 0 then
      match parsed with
      | .error m => .error (.jsonDecodeError m)
      | .ok none => .ok none
      | .ok (some codecName) => .ok codecName
    else
      .ok none

/-- Function `get_video_codec_info` (lines 113-148): the `try` body with its
`except TimeoutExpired` / `except JSONDecodeError` / `except Exception`
handlers, each of which returns `None` (lines 138-148). -/
def get_video_codec_info (env : ProbeEnv) : Except PyExn (Option String) :=
  match get_video_codec_info_tryBody env with
  | .ok r => .ok r
  | .error .timeoutExpired => .ok none
  | .error (.jsonDecodeError _) => .ok none
  | .error (.otherError _ _) => .ok none

/-! ## Staging stage: `file_preparer_worker` (script lines 225-368)

The per-item body (lines 261-367). External events — the user cancelling
the item at one of the re-check points, the global stop event, the
outcomes of `shutil.copy2` and of `os.remove(original)` — are inputs. -/

/-- CLI flags (`argparse`, lines 1038-1049). -/
structure Args where
  delete_errors : Bool := false
  delete_zeros : Bool := false
deriving Repr, DecidableEq

/-- Environment of one pass of the preparer over one item. -/
structure PrepEnv where
  probe : ProbeEnv
  /-- item was cancelled while `ffprobe` ran (check at lines 272-275) -/
  cancelledAfterProbe1 : Bool := false
  /-- value of `stop_event.is_set()` at line 279 -/
  stopSet : Bool := false
  /-- item was cancelled, seen at the second re-check (lines 280-284) -/
  cancelledAfterProbe2 : Bool := false
  /-- item was cancelled, seen at the pre-copy check (lines 325-329) -/
  cancelledBeforeCopy : Bool := false
  /-- outcome of `shutil.copy2` (line 339) -/
  copyResult : OsResult := .ok
  /-- whether a partial temp file exists when the copy failed (line 364) -/
  partialTempExists : Bool := false
  /-- item was cancelled, seen at the post-copy check (lines 342-349) -/
  cancelledDuringCopy : Bool := false
  /-- outcome of `os.remove(original)` in the `--delete-errors` branch -/
  deleteOriginalResult : OsResult := .ok
deriving Repr

/-- Default message installed at line 300 when `error_details` is unset. -/
def ffprobeFailedDetails : String :=
  "ffprobe failed to determine codec or file is invalid."

/-- The probe-failure branch of the preparer (lines 295-317): mark the
item `error`; under `--delete-errors` also delete the original source,
transitioning to `deleted_error` on success and recording the failure
otherwise. Returns the updated item and the filesystem operations that
actually happened. -/
def preparer_handleProbeFailure (args : Args) (deleteResult : OsResult)
    (item : FileItem) : FileItem × List FsOp :=
  let detail := match item.error_details with
    | none => ffprobeFailedDetails
    | some d => if d = "" then ffprobeFailedDetails else d
  let item := { item with status := "error", status_message := "ffprobe failed",
                          error_details := some detail }
  if args.delete_errors then
    match deleteResult with
    | .ok =>
        ({ item with status := "deleted_error",
                     status_message := "ffprobe error (deleted)" },
         [.removeFile item.original_path])
    | .err e =>
        ({ item with status_message := "ffprobe error (del failed)",
                     error_details := some (detail ++ " | Delete failed: " ++ e) },
         [])
  else
    (item, [])

/-- Applying the probe-failure branch inside the registry: only the item
with the given id is rewritten (all other items are untouched, mirroring
that the `continue` at line 317 moves on to other items). -/
def preparer_markProbeFailure (args : Args) (deleteResult : OsResult)
    (files : List FileItem) (i : Nat) : List FileItem :=
  files.map (fun it =>
    if it.id = i then (preparer_handleProbeFailure args deleteResult it).1 else it)

/-- Static codec → QSV decoder map (line 319). -/
def qsv_decoder_map : List (String × String) :=
  [("h264", "h264_qsv"), ("hevc", "hevc_qsv"),
   ("mpeg2video", "mpeg2_qsv"), ("vp9", "vp9_qsv")]

/-- One pass of the preparer's per-item body (lines 261-367), from the
moment the item was popped off the pending queue into
`preparing_files_list`. Returns the item's final state and the
filesystem operations performed. -/
def file_preparer_processItem (args : Args) (env : PrepEnv) (item0 : FileItem) :
    FileItem × List FsOp :=
  -- entry re-check (lines 263-266): already terminal, drop
  if item0.status ∈ terminalStatuses then
    (item0, [])
  else
    -- lines 267-269
    let item := { item0 with status := "checking", status_message := "ffprobe" }
    let codec := match get_video_codec_info env.probe with
      | .ok c => c
      | .error _ => none
    -- cancelled while ffprobe ran (lines 272-275): the UI already wrote
    -- status "cancelled" / "User cancelled" (lines 962-963)
    if env.cancelledAfterProbe1 then
      ({ item with status := "cancelled", status_message := "User cancelled" }, [])
    else
    let item := { item with input_codec := codec }      -- line 277
    if env.stopSet then (item, [])                      -- line 279: break
    else if env.cancelledAfterProbe2 then               -- lines 280-284
      ({ item with status := "cancelled", status_message := "User cancelled" }, [])
    else if codec == some "av1" then                    -- lines 286-293
      ({ item with status := "skipped", status_message := "Already AV1" }, [])
    else if codec.isNone then                           -- lines 295-317
      preparer_handleProbeFailure args env.deleteOriginalResult item
    else
    -- lines 319-323
    let item := { item with qsv_input_codec := qsv_decoder_map.lookup (codec.getD "") }
    let item := if item.qsv_input_codec.isNone then
        { item with use_cpu_decode := true } else item
    if env.cancelledBeforeCopy then                     -- lines 325-329
      ({ item with status := "cancelled", status_message := "User cancelled" }, [])
    else
    -- lines 330-339
    let item := { item with status := "transferring_to_temp",
                            status_message := "Copying..." }
    let tempPath := pathJoin TEMP_DIRECTORY (toString item.id ++ "_" ++ item.filename)
    let item := { item with temp_source_path := some tempPath }
    match env.copyResult with
    | .err e =>
        -- `except Exception` handler, lines 356-366
        ({ item with status := "error", status_message := "Preparation failed",
                     error_details := some e },
         [.makeDirs TEMP_DIRECTORY] ++
           (if env.partialTempExists then [.removeFile tempPath] else []))
    | .ok =>
      if env.cancelledDuringCopy then                   -- lines 342-349
        -- the temp file is removed but `temp_source_path` is not cleared
        ({ item with status := "cancelled", status_message := "User cancelled" },
         [.makeDirs TEMP_DIRECTORY, .copyFile item.original_path tempPath,
          .removeFile tempPath])
      else                                              -- lines 350-354
        ({ item with status := "ready", status_message := "In temp" },
         [.makeDirs TEMP_DIRECTORY, .copyFile item.original_path tempPath])

/-! ## Shared queue discipline (scanner / preparer / encoder / UI)

An abstract transition system over the four shared collections
(`pending_files_queue`, `preparing_files_list`, `ready_for_encode_queue`,
`encoding_files_list`), each modelled as the list of item ids it holds.
Every constructor is one lock-protected mutation of the script; the
preparer's cap check (lines 241-247) and the subsequent dequeue
(lines 249-256) are modelled as one atomic step guarded by the cap,
which is sound because every mutation other threads can interleave
between the two lock sections only shrinks
`len(ready_for_encode_queue) + len(preparing_files_list)`. -/

structure QueueState where
  pendingQ : List Nat
  preparing : List Nat
  readyQ : List Nat
  encoding : List Nat
deriving Repr, DecidableEq

/-- Count `num_being_readied = len(ready_for_encode_queue) + len(preparing_files_list)`
(line 242). -/
def QueueState.beingReadied (s : QueueState) : Nat :=
  s.readyQ.length + s.preparing.length

inductive QueueStep : QueueState → QueueState → Prop where
  /-- Preparer pops a pending item into `preparing_files_list`
  (lines 249-256), permitted only by the cap check of lines 241-247. -/
  | prepTake (s : QueueState) (i : Nat) (rest : List Nat)
      (hq : s.pendingQ = i :: rest)
      (hcap : s.beingReadied < NUM_FILES_TO_PREPARE) :
      QueueStep s { s with pendingQ := rest, preparing := s.preparing ++ [i] }
  /-- Preparer pops an already cancelled/deleted item and drops it
  (lines 252-255); same cap guard precedes the pop. -/
  | prepDiscard (s : QueueState) (i : Nat) (rest : List Nat)
      (hq : s.pendingQ = i :: rest)
      (hcap : s.beingReadied < NUM_FILES_TO_PREPARE) :
      QueueStep s { s with pendingQ := rest }
  /-- Preparer finishes staging an item: it leaves `preparing_files_list`
  and joins the ready queue (lines 350-353). -/
  | prepFinish (s : QueueState) (i : Nat) (h : i ∈ s.preparing) :
      QueueStep s { s with preparing := s.preparing.erase i,
                           readyQ := s.readyQ ++ [i] }
  /-- An item leaves `preparing_files_list` without being enqueued:
  the preparer's skip/error/cancel paths, or the UI cancel handler
  (lines 264, 283, 290, 314, 328, 348, 361, 965-967). -/
  | prepAbort (s : QueueState) (i : Nat) (h : i ∈ s.preparing) :
      QueueStep s { s with preparing := s.preparing.erase i }
  /-- UI cancel removes the item from the ready queue (lines 968-970). -/
  | uiCancelReady (s : QueueState) (i : Nat) (h : i ∈ s.readyQ) :
      QueueStep s { s with readyQ := s.readyQ.erase i }
  /-- Encoder picks a ready item while below the worker bound
  (lines 385-388). -/
  | encTake (s : QueueState) (i : Nat) (rest : List Nat)
      (hq : s.readyQ = i :: rest)
      (hw : s.encoding.length < NUM_FFMPEG_WORKERS) :
      QueueStep s { s with readyQ := rest, encoding := s.encoding ++ [i] }
  /-- Encoder releases the item from `encoding_files_list`
  (lines 563-568). -/
  | encFinish (s : QueueState) (i : Nat) :
      QueueStep s { s with encoding := s.encoding.erase i }

/-- States reachable during a run: the scanner seeds only the pending
queue (lines 214-221); afterwards every mutation is a `QueueStep`. -/
inductive QueueReachable : QueueState → Prop where
  | init (pending : List Nat) : QueueReachable ⟨pending, [], [], []⟩
  | step {s t : QueueState} :
      QueueReachable s → QueueStep s t → QueueReachable t

/-! ## Transcode stage: `ffmpeg_encoder_worker` (script lines 370-573)

The per-item body, from the moment the item was popped off the ready
queue into `encoding_files_list` (line 403) to the end of the `try`
block (line 562). The poll loop over the running FFmpeg process
(lines 451-472) checks, in priority order, the global stop event, user
cancellation and the wall-clock timeout; its outcome is an input. -/

/-- Why the poll loop of lines 451-472 ended. The loop breaks on the
first condition observed, so the three detections are mutually
exclusive. -/
inductive PollOutcome where
  | processExited
  | stopDetected
  | cancelDetected
  | timeoutDetected
deriving Repr, DecidableEq

/-- Environment of one pass of the encoder over one item. -/
structure EncEnv where
  /-- status ∈ {cancelled, deleted_zero, deleted_error} when picked
  (lines 409-412) -/
  alreadyTerminal : Bool := false
  /-- the staged temp source file is on disk (it is, unless something
  external removed it) -/
  tempSourceExists : Bool := true
  /-- how the poll loop of lines 451-472 ended -/
  pollOutcome : PollOutcome := .processExited
  /-- FFmpeg return code collected at line 486 -/
  returnCode : Int := 0
  /-- the UI set status "cancelled" after the poll loop had already
  ended for another reason, seen at the check of lines 493-496 -/
  cancelledLate : Bool := false
  /-- value of `os.path.exists(temp_encoded_path)` (lines 513, 539) -/
  outputExists : Bool := true
  /-- value of `os.path.getsize(temp_encoded_path)` (line 519) -/
  outputSize : Nat := 0
  /-- captured FFmpeg stderr (line 485) -/
  stderr : String := ""
  /-- whether `shutil.move(temp_encoded_path, final_temp_name)` (line 522)
  raises with this message -/
  moveToFinalTempFails : Option String := none
  /-- whether `shutil.move(final_temp_name, original_path)` (line 528) raises
  with this message -/
  commitMoveFails : Option String := none
  /-- wall-clock time when encoding starts (line 425) -/
  now : Nat := 0
deriving Repr

/-- Mirrors `os.path.dirname`. -/
def dirname (p : String) : String :=
  joinPath ((splitPath p).dropLast)

/-- Post-outcome cleanup and timestamp reset (lines 538-544): when the
item did not reach `success`/`transferring_to_source`, remove whatever
temp files its fields still point to, then clear
`encoding_start_time`. -/
def encoder_finishItem (encodedFileOnDisk srcFileOnDisk : Bool)
    (item : FileItem) (ops : List FsOp) : FileItem × List FsOp :=
  let cleanupOps :=
    if item.status ≠ "success" ∧ item.status ≠ "transferring_to_source" then
      (match item.temp_encoded_path with
       | some p => if encodedFileOnDisk then [FsOp.removeFile p] else []
       | none => []) ++
      (match item.temp_source_path with
       | some p => if srcFileOnDisk then [FsOp.removeFile p] else []
       | none => [])
    else []
  ({ item with encoding_start_time := none }, ops ++ cleanupOps)

/-- One pass of the encoder's per-item body (lines 403-562). Returns the
item's final state, the filesystem operations performed, and the trace
of observable `(status, encoded_size)` states the item went through. -/
def ffmpeg_encoder_processItem (env : EncEnv) (item0 : FileItem) :
    FileItem × List FsOp × List (String × Option Nat) :=
  if env.alreadyTerminal then
    -- lines 414-420: leave the item untouched, drop a lingering temp source
    (item0,
     (match item0.temp_source_path with
      | some p => if env.tempSourceExists then [FsOp.removeFile p] else []
      | none => []),
     [])
  else
    -- lines 422-426
    let item := { item0 with status := "encoding",
                             status_message := "FFmpeg running",
                             encoding_start_time := some env.now }
    let trace := [(item.status, item.encoded_size)]
    -- lines 428-429
    let srcPath := item.temp_source_path.getD ""
    let encPath := (splitext srcPath).1 ++ "_av1" ++ (splitext srcPath).2
    let item := { item with temp_encoded_path := some encPath }
    -- poll loop and exit-status collection (lines 451-491)
    let timedOut := env.pollOutcome == .timeoutDetected
    let return_code : Int := if timedOut then -9 else env.returnCode
    let stderr_data := if timedOut then "FFmpeg process timed out." else env.stderr
    -- `final_status_is_user_cancelled` (lines 493-496)
    let cancelledAtCheck :=
      env.cancelledLate || (env.pollOutcome == .cancelDetected)
    if timedOut then
      -- lines 498-503
      let item := { item with
        status := "error"
        status_message := "FFmpeg Timeout"
        error_details := some ("Process exceeded timeout of "
          ++ toString FFMPEG_ENCODE_TIMEOUT_SECONDS ++ "s.") }
      let (item, ops) := encoder_finishItem env.outputExists env.tempSourceExists item []
      (item, ops, trace ++ [(item.status, item.encoded_size)])
    else if cancelledAtCheck then
      -- lines 504-505: the UI already wrote "cancelled"/"User cancelled"
      -- (lines 962-963); the encoder only cleans up
      let item := { item with status := "cancelled",
                              status_message := "User cancelled" }
      let (item, ops) := encoder_finishItem env.outputExists env.tempSourceExists item []
      (item, ops, trace ++ [(item.status, item.encoded_size)])
    else if env.pollOutcome == .stopDetected then
      -- lines 506-510
      let item := { item with
        status := "error"
        status_message := "Interrupted (app exit)"
        error_details := some ("Process stopped by application exit. FFmpeg RC="
          ++ toString return_code) }
      let (item, ops) := encoder_finishItem env.outputExists env.tempSourceExists item []
      (item, ops, trace ++ [(item.status, item.encoded_size)])
    else if return_code == 0 then
      if ¬ env.outputExists then
        -- lines 513-517
        let item := { item with
          status := "error"
          status_message := "Output missing"
          error_details := some ("FFmpeg success but output "
            ++ encPath ++ " missing.") }
        let (item, ops) := encoder_finishItem env.outputExists env.tempSourceExists item []
        (item, ops, trace ++ [(item.status, item.encoded_size)])
      else
        -- line 519: encoded size recorded while status is still "encoding"
        let item := { item with encoded_size := some env.outputSize }
        let trace := trace ++ [(item.status, item.encoded_size)]
        -- line 520: delete the temp source
        let ops := match item.temp_source_path with
          | some p => if env.tempSourceExists then [FsOp.removeFile p] else []
          | none => []
        -- lines 521-522: rename the output to the temp-source base name
        let finalTempName := (splitext srcPath).1 ++ item.extension
        match env.moveToFinalTempFails with
        | some m =>
          -- `except Exception` handler, lines 546-562: the output file is
          -- still at `temp_encoded_path`, the temp source is already gone
          let item := { item with
            status := "error"
            status_message := "Processing exception"
            error_details := some m
            encoding_start_time := none }
          (item, ops ++ [FsOp.removeFile encPath],
           trace ++ [(item.status, item.encoded_size)])
        | none =>
          let ops := ops ++ [FsOp.moveFile encPath finalTempName]
          let item := { item with temp_encoded_path := none }    -- line 523
          -- line 524
          let item := { item with status := "transferring_to_source",
                                  status_message := "Moving..." }
          let trace := trace ++ [(item.status, item.encoded_size)]
          -- lines 526-528
          let ops := ops ++ [FsOp.makeDirs (dirname item.original_path)]
          match env.commitMoveFails with
          | some m =>
            -- `except Exception` handler, lines 546-562: `temp_encoded_path`
            -- is `None`; the file at `temp_source_path` exists again exactly
            -- when the line-522 move recreated that very name
            let item := { item with
              status := "error"
              status_message := "Processing exception"
              error_details := some m
              encoding_start_time := none }
            let ops := ops ++
              (if finalTempName = srcPath then [FsOp.removeFile srcPath] else [])
            (item, ops, trace ++ [(item.status, item.encoded_size)])
          | none =>
            let ops := ops ++ [FsOp.moveFile finalTempName item.original_path]
            -- line 529
            let item := { item with status := "success",
                                    status_message := "AV1 Encoded" }
            let trace := trace ++ [(item.status, item.encoded_size)]
            -- lines 538-544: status is "success", so no cleanup happens
            let (item, ops) := encoder_finishItem false false item ops
            (item, ops, trace)
    else
      -- lines 531-536
      let item := { item with
        status := "error"
        status_message := "FFmpeg failed"
        error_details := some ("FFmpeg Error (code " ++ toString return_code
          ++ "): " ++ stderr_data) }
      let (item, ops) := encoder_finishItem env.outputExists env.tempSourceExists item []
      (item, ops, trace ++ [(item.status, item.encoded_size)])

/-! ## Lifecycle controller: `cleanup_all_temp_files` (script lines 823-854)

The final sweep. The filesystem is modelled as the list of existing
regular files; `os.path.commonpath([path, abs_temp]) == abs_temp` on
absolute normalized paths is the component-prefix test. The
`except OSError` path of the removal loop (lines 845-847) is an
explicit input: a failed `os.remove` leaves that file on disk. -/

/-- The set of temp paths recorded by any `FileItem`
(`files_to_check_for_cleanup`, lines 828-834). -/
def recordedTempPaths (files : List FileItem) : List String :=
  files.foldr (fun i acc =>
    (match i.temp_source_path with | some p => [p] | none => []) ++
    (match i.temp_encoded_path with | some p => [p] | none => []) ++ acc) []

/-- Test `os.path.commonpath([p, tempAbs]) == tempAbs` for absolute
normalized paths: every component of `tempAbs` leads `p` (line 840). -/
def isWithinTemp (tempAbs p : String) : Bool :=
  List.isPrefixOf (splitPath tempAbs) (splitPath p)

/-- Whether the sweep removes path `p` (lines 838-848): it is recorded
by some item, exists as a file, and is confirmed inside the temp
directory. -/
def cleanup_shouldRemove (tempAbs : String) (recorded : List String)
    (p : String) : Bool :=
  recorded.contains p && isWithinTemp tempAbs p

/-- Function `cleanup_all_temp_files` (lines 823-854) as a filesystem
transformer. Each selected path (recorded, existing, confirmed inside
the temp directory) is passed to `os.remove`; `removeFails p` says
whether that call raises `OSError` (lines 845-847), in which case the
file stays on disk and only the error counter is incremented. The
surviving files are exactly those the sweep does not successfully
remove. -/
def cleanup_all_temp_files (tempAbs : String) (files : List FileItem)
    (removeFails : String → Bool) (fs : List String) : List String :=
  fs.filter (fun p =>
    !(cleanup_shouldRemove tempAbs (recordedTempPaths files) p && !(removeFails p)))

/-! ## Theorems settling the claims -/

/-- C6: when the discovery walk completes, the pending queue contains
exactly the discovered items whose status is still `pending` (items in
any other status — including `deleted_zero` and `error` from the scan —
are never enqueued), ordered by full source path ascending. -/
theorem C6_pending_queue_exact (discovered : List FileItem) :
    (∀ it ∈ (scanner_finalize discovered).2, it.status = "pending") ∧
    ((scanner_finalize discovered).2).Perm
      (discovered.filter (fun i => i.status == "pending")) ∧
    ((scanner_finalize discovered).2).Pairwise
      (fun a b => a.original_path ≤ b.original_path) := by
  simp only [scanner_finalize]
  refine ⟨?_, ?_, ?_⟩
  · intro it hit
    exact eq_of_beq (List.mem_filter.mp hit).2
  · exact (List.mergeSort_perm discovered _).filter _
  · have hs := @List.sorted_mergeSort FileItem
      (fun a b : FileItem => decide (a.original_path ≤ b.original_path))
      (fun a b c hab hbc => by
        simp only [decide_eq_true_eq] at *
        exact le_trans hab hbc)
      (fun a b => by
        simp only [Bool.or_eq_true, decide_eq_true_eq]
        exact le_total _ _)
      discovered
    exact (List.Pairwise.sublist (List.filter_sublist _) hs).imp
      (fun h => of_decide_eq_true h)

/-- C6 witness: on a concrete two-item scan (one zero-byte item whose
deletion failed, one healthy item), the queued item is `pending`. -/
theorem C6_pending_queue_exact_witness :
    (scanner_processFile 1 "/data/b.mkv" (.ok 5) false .ok).status = "pending" :=
  (C6_pending_queue_exact
      [scanner_processFile 1 "/data/b.mkv" (.ok 5) false .ok,
       scanner_processFile 0 "/data/a.mkv" (.ok 0) true (.err "EPERM")]).1
    (scanner_processFile 1 "/data/b.mkv" (.ok 5) false .ok)
    (((C6_pending_queue_exact
        [scanner_processFile 1 "/data/b.mkv" (.ok 5) false .ok,
         scanner_processFile 0 "/data/a.mkv" (.ok 0) true (.err "EPERM")]).2.1.mem_iff).mpr
      (by decide))

/-- C10: when `--delete-zeros` is active and deleting a discovered
zero-byte file fails with an OS error, the item is marked `error` (not
`deleted_zero`) with the delete failure in `error_details`, and it is
never placed on the pending queue. -/
theorem C10_zero_byte_delete_failure (id : Nat) (path e : String) :
    (scanner_processFile id path (.ok 0) true (.err e)).status = "error" ∧
    (scanner_processFile id path (.ok 0) true (.err e)).status ≠ "deleted_zero" ∧
    (scanner_processFile id path (.ok 0) true (.err e)).status_message
      = "0-byte (delete failed)" ∧
    (scanner_processFile id path (.ok 0) true (.err e)).error_details = some e ∧
    (∀ discovered,
      scanner_processFile id path (.ok 0) true (.err e) ∉ (scanner_finalize discovered).2) := by
  refine ⟨rfl, show ("error" : String) ≠ "deleted_zero" by decide, rfl, rfl, ?_⟩
  intro discovered hmem
  have h := (C6_pending_queue_exact discovered).1 _ hmem
  simp [scanner_processFile, FileItem.create] at h

/-- C10 witness: evaluation at a concrete input. -/
theorem C10_zero_byte_delete_failure_witness :
    (scanner_processFile 3 "/data/a.mkv" (.ok 0) true (.err "EPERM")).status = "error" ∧
    (scanner_processFile 3 "/data/a.mkv" (.ok 0) true (.err "EPERM")).error_details
      = some "EPERM" :=
  ⟨(C10_zero_byte_delete_failure 3 "/data/a.mkv" "EPERM").1,
   (C10_zero_byte_delete_failure 3 "/data/a.mkv" "EPERM").2.2.2.1⟩

/-- C2 counterexample: when the removal of a recorded temp file raises
`OSError` (lines 845-847) the file survives the sweep, and a second
sweep whose removal succeeds deletes it — so "running the sweep a
second time deletes nothing further", stated unconditionally, is
false. -/
theorem C2_counterexample_failed_removal_retried :
    cleanup_all_temp_files "/ssd/av1_tmp"
        [{ FileItem.create 7 "/data/vid/movie.mkv" 100 with
             temp_source_path := some "/ssd/av1_tmp/7_movie.mkv" }]
        (fun _ => true) ["/ssd/av1_tmp/7_movie.mkv"]
      = ["/ssd/av1_tmp/7_movie.mkv"] ∧
    cleanup_all_temp_files "/ssd/av1_tmp"
        [{ FileItem.create 7 "/data/vid/movie.mkv" 100 with
             temp_source_path := some "/ssd/av1_tmp/7_movie.mkv" }]
        (fun _ => false)
        (cleanup_all_temp_files "/ssd/av1_tmp"
          [{ FileItem.create 7 "/data/vid/movie.mkv" 100 with
               temp_source_path := some "/ssd/av1_tmp/7_movie.mkv" }]
          (fun _ => true) ["/ssd/av1_tmp/7_movie.mkv"])
      = [] :=
  ⟨rfl, rfl⟩

/-- C2 amended: under any pattern of removal failures the sweep deletes
only files recorded in some item and confirmed inside the temp
directory, and never touches a path outside it; when every removal of
a sweep succeeds, a second sweep deletes nothing further; and in
general a second sweep can delete only a file whose removal the first
sweep attempted and failed. -/
theorem C2_amended_cleanup_safe (tempAbs : String) (files : List FileItem)
    (rf rf1 rf2 : String → Bool) (fs : List String) :
    (∀ p ∈ fs, p ∉ cleanup_all_temp_files tempAbs files rf fs →
       isWithinTemp tempAbs p = true ∧ p ∈ recordedTempPaths files) ∧
    (∀ p, isWithinTemp tempAbs p = false →
       (p ∈ cleanup_all_temp_files tempAbs files rf fs ↔ p ∈ fs)) ∧
    cleanup_all_temp_files tempAbs files rf
        (cleanup_all_temp_files tempAbs files (fun _ => false) fs)
      = cleanup_all_temp_files tempAbs files (fun _ => false) fs ∧
    (∀ p, p ∈ cleanup_all_temp_files tempAbs files rf1 fs →
       p ∉ cleanup_all_temp_files tempAbs files rf2
             (cleanup_all_temp_files tempAbs files rf1 fs) →
       rf1 p = true) := by
  refine ⟨?_, ?_, ?_, ?_⟩
  · intro p hp hnot
    by_cases h : cleanup_shouldRemove tempAbs (recordedTempPaths files) p = true
    · simp only [cleanup_shouldRemove, Bool.and_eq_true] at h
      refine ⟨h.2, ?_⟩
      simpa using h.1
    · exfalso
      exact hnot (List.mem_filter.mpr ⟨hp, by simp [h]⟩)
  · intro p hout
    unfold cleanup_all_temp_files
    rw [List.mem_filter]
    simp [cleanup_shouldRemove, hout]
  · apply List.filter_eq_self.mpr
    intro p hp
    have h1 := (List.mem_filter.mp hp).2
    simp only [Bool.not_false, Bool.and_true, Bool.not_eq_true'] at h1
    simp [h1]
  · intro p hp1 hp2
    have k1 := (List.mem_filter.mp hp1).2
    rcases Bool.eq_false_or_eq_true (rf1 p) with hr | hr
    · exact hr
    · exfalso
      apply hp2
      refine List.mem_filter.mpr ⟨hp1, ?_⟩
      simp only [hr, Bool.not_false, Bool.and_true, Bool.not_eq_true'] at k1
      simp [k1]

/-- C2 amended witness: a concrete registry and filesystem — the sweep
keeps the file outside the temp directory even while its own removals
fail. -/
theorem C2_amended_cleanup_safe_witness :
    "/data/vid/movie.mkv" ∈ cleanup_all_temp_files "/ssd/av1_tmp"
      [{ FileItem.create 7 "/data/vid/movie.mkv" 100 with
           temp_source_path := some "/ssd/av1_tmp/7_movie.mkv" }]
      (fun _ => true)
      ["/ssd/av1_tmp/7_movie.mkv", "/data/vid/movie.mkv"] :=
  ((C2_amended_cleanup_safe "/ssd/av1_tmp"
      [{ FileItem.create 7 "/data/vid/movie.mkv" 100 with
           temp_source_path := some "/ssd/av1_tmp/7_movie.mkv" }]
      (fun _ => true) (fun _ => true) (fun _ => true)
      ["/ssd/av1_tmp/7_movie.mkv", "/data/vid/movie.mkv"]).2.1
    "/data/vid/movie.mkv" (by decide)).mpr (by decide)

/-- C8: the probe never raises to its caller — every environment yields
a normal `Option String` return — and on a `None` result the staging
stage marks that item `error` (or `deleted_error` when the configured
deletion succeeds) while every other item of the registry is untouched. -/
theorem C8_probe_never_raises_and_contained :
    (∀ env : ProbeEnv, ∃ r, get_video_codec_info env = .ok r) ∧
    (∀ (args : Args) (res : OsResult) (item : FileItem),
       (preparer_handleProbeFailure args res item).1.status = "error" ∨
       (preparer_handleProbeFailure args res item).1.status = "deleted_error") ∧
    (∀ (args : Args) (res : OsResult) (files : List FileItem) (i : Nat)
       (it : FileItem), it ∈ files → it.id ≠ i →
       it ∈ preparer_markProbeFailure args res files i) := by
  refine ⟨?_, ?_, ?_⟩
  · intro env
    rcases env with ⟨n, m⟩ | _ | ⟨rc, parsed⟩
    · exact ⟨none, rfl⟩
    · exact ⟨none, rfl⟩
    · by_cases hrc : rc == 0
      · rcases parsed with m | c
        · exact ⟨none, by simp [get_video_codec_info, get_video_codec_info_tryBody, hrc]⟩
        · rcases c with _ | c
          · exact ⟨none, by simp [get_video_codec_info, get_video_codec_info_tryBody, hrc]⟩
          · exact ⟨c, by simp [get_video_codec_info, get_video_codec_info_tryBody, hrc]⟩
      · exact ⟨none, by simp [get_video_codec_info, get_video_codec_info_tryBody, hrc]⟩
  · intro args res item
    unfold preparer_handleProbeFailure
    rcases res with _ | e <;> by_cases h : args.delete_errors <;> simp [h]
  · intro args res files i it hmem hid
    unfold preparer_markProbeFailure
    have := List.mem_map_of_mem
      (fun it : FileItem =>
        if it.id = i then (preparer_handleProbeFailure args res it).1 else it) hmem
    simpa [hid] using this

/-- C8 witness: the probe timing out yields a normal `None`, and
the probe-failure handler at a concrete item of another id leaves a
second item untouched. -/
theorem C8_probe_never_raises_and_contained_witness :
    ((preparer_handleProbeFailure {} .ok (FileItem.create 1 "/data/b.mkv" 5)).1.status
        = "error" ∨
      (preparer_handleProbeFailure {} .ok (FileItem.create 1 "/data/b.mkv" 5)).1.status
        = "deleted_error") ∧
    FileItem.create 2 "/data/c.mkv" 6 ∈
      preparer_markProbeFailure {} .ok
        [FileItem.create 1 "/data/b.mkv" 5, FileItem.create 2 "/data/c.mkv" 6] 1 :=
  ⟨C8_probe_never_raises_and_contained.2.1 {} .ok (FileItem.create 1 "/data/b.mkv" 5),
   C8_probe_never_raises_and_contained.2.2 {} .ok
     [FileItem.create 1 "/data/b.mkv" 5, FileItem.create 2 "/data/c.mkv" 6] 1
     (FileItem.create 2 "/data/c.mkv" 6) (by decide) (by decide)⟩

/-- Helper: every queue transition preserves the staging cap. -/
theorem QueueStep.beingReadied_le {s t : QueueState} (h : QueueStep s t)
    (hs : s.beingReadied ≤ NUM_FILES_TO_PREPARE) :
    t.beingReadied ≤ NUM_FILES_TO_PREPARE := by
  cases h with
  | prepTake i rest hq hcap =>
      simp only [QueueState.beingReadied, List.length_append,
        List.length_singleton] at *
      omega
  | prepDiscard i rest hq hcap =>
      simpa [QueueState.beingReadied] using hs
  | prepFinish i hmem =>
      have he := List.length_erase_of_mem hmem
      have hpos : 0 < s.preparing.length := List.length_pos_of_mem hmem
      simp only [QueueState.beingReadied, List.length_append,
        List.length_singleton, he] at *
      omega
  | prepAbort i hmem =>
      have hle := (List.erase_sublist i s.preparing).length_le
      simp only [QueueState.beingReadied] at *
      omega
  | uiCancelReady i hmem =>
      have hle := (List.erase_sublist i s.readyQ).length_le
      simp only [QueueState.beingReadied] at *
      omega
  | encTake i rest hq hw =>
      simp only [QueueState.beingReadied, hq, List.length_cons] at *
      omega
  | encFinish i =>
      have hle := (List.erase_sublist i s.encoding).length_le
      simpa [QueueState.beingReadied] using hs

/-- C7: in every reachable state of the shared queues, the number of
items being staged plus the number staged-but-not-yet-encoding never
exceeds `NUM_FILES_TO_PREPARE`, and any step that dequeues from the
pending queue is possible only while that count is strictly below the
cap. -/
theorem C7_staging_cap (s : QueueState) (h : QueueReachable s) :
    s.beingReadied ≤ NUM_FILES_TO_PREPARE ∧
    (∀ t, QueueStep s t → t.pendingQ.length < s.pendingQ.length →
       s.beingReadied < NUM_FILES_TO_PREPARE) := by
  constructor
  · induction h with
    | init pending => simp [QueueState.beingReadied]
    | step hr hstep ih => exact hstep.beingReadied_le ih
  · intro t hstep hlt
    cases hstep with
    | prepTake i rest hq hcap => exact hcap
    | prepDiscard i rest hq hcap => exact hcap
    | prepFinish i hmem => exact absurd hlt (by simp)
    | prepAbort i hmem => exact absurd hlt (by simp)
    | uiCancelReady i hmem => exact absurd hlt (by simp)
    | encTake i rest hq hw => exact absurd hlt (by simp)
    | encFinish i => exact absurd hlt (by simp)

/-- C7 witness: the freshly seeded state is reachable and satisfies the
cap. -/
theorem C7_staging_cap_witness :
    (⟨[1, 2, 3], [], [], []⟩ : QueueState).beingReadied ≤ NUM_FILES_TO_PREPARE :=
  (C7_staging_cap ⟨[1, 2, 3], [], [], []⟩ (QueueReachable.init [1, 2, 3])).1

/-- C9: a pending item whose probe reports the target codec `av1`
reaches terminal status `skipped`; its temp path fields are never set
and no filesystem operation — in particular no temp-file creation and
no write to the original — is performed. -/
theorem C9_target_codec_skipped (args : Args) (env : PrepEnv) (item : FileItem)
    (hstatus : item.status = "pending")
    (hsrc : item.temp_source_path = none)
    (henc : item.temp_encoded_path = none)
    (hprobe : get_video_codec_info env.probe = .ok (some "av1"))
    (hc1 : env.cancelledAfterProbe1 = false)
    (hstop : env.stopSet = false)
    (hc2 : env.cancelledAfterProbe2 = false) :
    (file_preparer_processItem args env item).1.status = "skipped" ∧
    (file_preparer_processItem args env item).1.status_message = "Already AV1" ∧
    (file_preparer_processItem args env item).1.temp_source_path = none ∧
    (file_preparer_processItem args env item).1.temp_encoded_path = none ∧
    (file_preparer_processItem args env item).2 = [] := by
  unfold file_preparer_processItem
  rw [hprobe]
  simp [hstatus, hsrc, henc, hc1, hstop, hc2, terminalStatuses]

/-- C9 witness: a concrete pending item probed as `av1`. -/
theorem C9_target_codec_skipped_witness :
    (file_preparer_processItem {} { probe := .exits 0 (.ok (some (some "av1"))) }
        (FileItem.create 1 "/data/b.mkv" 5)).1.status = "skipped" ∧
    (file_preparer_processItem {} { probe := .exits 0 (.ok (some (some "av1"))) }
        (FileItem.create 1 "/data/b.mkv" 5)).2 = [] :=
  ⟨(C9_target_codec_skipped {} { probe := .exits 0 (.ok (some (some "av1"))) }
      (FileItem.create 1 "/data/b.mkv" 5) rfl rfl rfl rfl rfl rfl rfl).1,
   (C9_target_codec_skipped {} { probe := .exits 0 (.ok (some (some "av1"))) }
      (FileItem.create 1 "/data/b.mkv" 5) rfl rfl rfl rfl rfl rfl rfl).2.2.2.2⟩

/-- C1: whenever the poll loop detects that the transcode exceeded
`FFMPEG_ENCODE_TIMEOUT_SECONDS`, the item ends in status `error` with
the timeout-specific message and details, and is never observed as
`success` or `cancelled` — for every return code the process may later
deliver. -/
theorem C1_timeout_always_error (env : EncEnv) (item : FileItem)
    (hterm : env.alreadyTerminal = false)
    (htime : env.pollOutcome = .timeoutDetected) :
    (ffmpeg_encoder_processItem env item).1.status = "error" ∧
    (ffmpeg_encoder_processItem env item).1.status_message = "FFmpeg Timeout" ∧
    (ffmpeg_encoder_processItem env item).1.error_details
      = some ("Process exceeded timeout of "
          ++ toString FFMPEG_ENCODE_TIMEOUT_SECONDS ++ "s.") ∧
    (∀ st ∈ (ffmpeg_encoder_processItem env item).2.2,
       st.1 ≠ "success" ∧ st.1 ≠ "cancelled") := by
  unfold ffmpeg_encoder_processItem encoder_finishItem
  simp [hterm, htime]

/-- C1 witness: a concrete timed-out item whose external process would
even have reported exit code 0. -/
theorem C1_timeout_always_error_witness :
    (ffmpeg_encoder_processItem
        { pollOutcome := .timeoutDetected, returnCode := 0 }
        { FileItem.create 7 "/data/vid/movie.mkv" 100 with
            status := "ready",
            temp_source_path := some "/ssd/av1_tmp/7_movie.mkv" }).1.status
      = "error" ∧
    (ffmpeg_encoder_processItem
        { pollOutcome := .timeoutDetected, returnCode := 0 }
        { FileItem.create 7 "/data/vid/movie.mkv" 100 with
            status := "ready",
            temp_source_path := some "/ssd/av1_tmp/7_movie.mkv" }).1.status_message
      = "FFmpeg Timeout" :=
  ⟨(C1_timeout_always_error
      { pollOutcome := .timeoutDetected, returnCode := 0 }
      { FileItem.create 7 "/data/vid/movie.mkv" 100 with
          status := "ready",
          temp_source_path := some "/ssd/av1_tmp/7_movie.mkv" } rfl rfl).1,
   (C1_timeout_always_error
      { pollOutcome := .timeoutDetected, returnCode := 0 }
      { FileItem.create 7 "/data/vid/movie.mkv" 100 with
          status := "ready",
          temp_source_path := some "/ssd/av1_tmp/7_movie.mkv" } rfl rfl).2.1⟩

/-- C5 counterexample: on the success path an item observed in
`encoding` is next observed in `transferring_to_source` (script
line 524, published under the UI lock) — a status outside
{success, error, cancelled} — before it reaches `success`. -/
theorem C5_counterexample_transferring_to_source :
    (ffmpeg_encoder_processItem { outputSize := 42 }
        { FileItem.create 7 "/data/vid/movie.mkv" 100 with
            status := "ready",
            temp_source_path := some "/ssd/av1_tmp/7_movie.mkv" }).2.2
      = [("encoding", none), ("encoding", some 42),
         ("transferring_to_source", some 42), ("success", some 42)] ∧
    "transferring_to_source" ∉ (["success", "error", "cancelled"] : List String) :=
  ⟨rfl, by decide⟩

/-- C5 amended: every item that enters `encoding` terminates in
`success`, `error` or `cancelled`, and on the way is observed only in
`encoding`, the intermediate `transferring_to_source`, or one of those
three terminal statuses. -/
theorem C5_amended_encoding_transitions (env : EncEnv) (item : FileItem)
    (hterm : env.alreadyTerminal = false) :
    (ffmpeg_encoder_processItem env item).1.status ∈
      (["success", "error", "cancelled"] : List String) ∧
    (∀ st ∈ (ffmpeg_encoder_processItem env item).2.2,
       st.1 ∈ (["encoding", "transferring_to_source", "success", "error",
                "cancelled"] : List String)) := by
  obtain ⟨aT, tse, po, rc, cl, oe, osz, stde, mvf, cmf, n⟩ := env
  simp only at hterm
  subst hterm
  by_cases hrc : rc = 0 <;>
    cases po <;> cases cl <;> cases oe <;>
      rcases mvf with _ | m <;> rcases cmf with _ | m2 <;>
        simp [ffmpeg_encoder_processItem, encoder_finishItem, hrc]

/-- C5 amended witness: the concrete success-path run terminates in one
of the three statuses. -/
theorem C5_amended_encoding_transitions_witness :
    (ffmpeg_encoder_processItem { outputSize := 42 }
        { FileItem.create 7 "/data/vid/movie.mkv" 100 with
            status := "ready",
            temp_source_path := some "/ssd/av1_tmp/7_movie.mkv" }).1.status ∈
      (["success", "error", "cancelled"] : List String) :=
  (C5_amended_encoding_transitions { outputSize := 42 }
      { FileItem.create 7 "/data/vid/movie.mkv" 100 with
          status := "ready",
          temp_source_path := some "/ssd/av1_tmp/7_movie.mkv" } rfl).1

/-- C3 counterexample: when the final move back to the original path
raises (script line 528), the item ends in terminal status `error`
while `encoded_size` is still set (line 519) — and `encoded_size` is
already observable with status still `encoding`. The claimed
"if and only if status is `success`" is false. -/
theorem C3_counterexample_error_with_encoded_size :
    (ffmpeg_encoder_processItem
        { outputSize := 42, commitMoveFails := some "Destination unwritable" }
        { FileItem.create 7 "/data/vid/movie.mkv" 100 with
            status := "ready",
            temp_source_path := some "/ssd/av1_tmp/7_movie.mkv" }).1.status
      = "error" ∧
    (ffmpeg_encoder_processItem
        { outputSize := 42, commitMoveFails := some "Destination unwritable" }
        { FileItem.create 7 "/data/vid/movie.mkv" 100 with
            status := "ready",
            temp_source_path := some "/ssd/av1_tmp/7_movie.mkv" }).1.encoded_size
      = some 42 ∧
    ("encoding", some 42) ∈
      (ffmpeg_encoder_processItem
        { outputSize := 42, commitMoveFails := some "Destination unwritable" }
        { FileItem.create 7 "/data/vid/movie.mkv" 100 with
            status := "ready",
            temp_source_path := some "/ssd/av1_tmp/7_movie.mkv" }).2.2 :=
  ⟨rfl, rfl, by decide⟩

/-- C3 amended: if the item reaches `success` then `encoded_size` is
set; conversely `encoded_size` becomes set exactly on the zero-exit,
output-exists path — where the item ends `success`, or `error` when one
of the two subsequent moves fails. -/
theorem C3_amended_encoded_size (env : EncEnv) (item : FileItem)
    (h0 : item.encoded_size = none) (hterm : env.alreadyTerminal = false) :
    ((ffmpeg_encoder_processItem env item).1.status = "success" →
      (ffmpeg_encoder_processItem env item).1.encoded_size = some env.outputSize) ∧
    ((ffmpeg_encoder_processItem env item).1.encoded_size ≠ none →
      env.pollOutcome = .processExited ∧ env.cancelledLate = false ∧
      env.returnCode = 0 ∧ env.outputExists = true ∧
      ((ffmpeg_encoder_processItem env item).1.status = "success" ∨
       ((ffmpeg_encoder_processItem env item).1.status = "error" ∧
        (env.moveToFinalTempFails ≠ none ∨ env.commitMoveFails ≠ none)))) := by
  obtain ⟨aT, tse, po, rc, cl, oe, osz, stde, mvf, cmf, n⟩ := env
  simp only at hterm
  subst hterm
  by_cases hrc : rc = 0 <;>
    cases po <;> cases cl <;> cases oe <;>
      rcases mvf with _ | m <;> rcases cmf with _ | m2 <;>
        simp [ffmpeg_encoder_processItem, encoder_finishItem, hrc, h0]

/-- C3 amended witness: the concrete success-path run. -/
theorem C3_amended_encoded_size_witness :
    (ffmpeg_encoder_processItem { outputSize := 42 }
        { FileItem.create 7 "/data/vid/movie.mkv" 100 with
            status := "ready",
            temp_source_path := some "/ssd/av1_tmp/7_movie.mkv" }).1.encoded_size
      = some 42 :=
  (C3_amended_encoded_size { outputSize := 42 }
      { FileItem.create 7 "/data/vid/movie.mkv" 100 with
          status := "ready",
          temp_source_path := some "/ssd/av1_tmp/7_movie.mkv" } rfl rfl).1 rfl

/-- C4 (code-bug exhibit): on a zero exit the stage checks only
`os.path.exists` (script line 513), never that the output is non-empty:
with an existing empty output the item is *not* marked `error`
"Output missing"; instead `encoded_size = 0` is recorded, the original
file is replaced by the empty output, and the item ends `success`. The
sibling variants of the script do reject empty outputs. -/
theorem C4_empty_output_not_rejected :
    (ffmpeg_encoder_processItem { outputExists := true, outputSize := 0 }
        { FileItem.create 7 "/data/vid/movie.mkv" 100 with
            status := "ready",
            temp_source_path := some "/ssd/av1_tmp/7_movie.mkv" }).1.status
      = "success" ∧
    (ffmpeg_encoder_processItem { outputExists := true, outputSize := 0 }
        { FileItem.create 7 "/data/vid/movie.mkv" 100 with
            status := "ready",
            temp_source_path := some "/ssd/av1_tmp/7_movie.mkv" }).1.status_message
      ≠ "Output missing" ∧
    (ffmpeg_encoder_processItem { outputExists := true, outputSize := 0 }
        { FileItem.create 7 "/data/vid/movie.mkv" 100 with
            status := "ready",
            temp_source_path := some "/ssd/av1_tmp/7_movie.mkv" }).1.encoded_size
      = some 0 ∧
    FsOp.moveFile "/ssd/av1_tmp/7_movie.mkv" "/data/vid/movie.mkv" ∈
      (ffmpeg_encoder_processItem { outputExists := true, outputSize := 0 }
        { FileItem.create 7 "/data/vid/movie.mkv" 100 with
            status := "ready",
            temp_source_path := some "/ssd/av1_tmp/7_movie.mkv" }).2.1 :=
  ⟨rfl, by decide, rfl, by decide⟩

end Av1EncQsv
